import Mathlib

/-!
Verification of the task-execution and workflow engine of the RAG-Pipeline
repository. Pure Python functions from `src/` are embedded as Lean
functions; the Celery result backend is embedded as an explicit state type,
and the engine pieces that live outside the repository tree (workflow
composer, chord barrier, retry loop, route table) are modelled from the
design document where noted.
-/

namespace RAGPipeline

/-- Captured Python exception descriptor: exception class name and message. -/
structure ErrDescr where
  excType : String
  message : String
deriving DecidableEq, Repr

/-- The exception raised by `divide_numbers_task` on a zero divisor
(src/tasks/basic_tasks.py line 23). -/
def zeroDivisionError : ErrDescr :=
  ⟨"ZeroDivisionError", "Cannot divide by zero"⟩

/-- Values flowing through tasks: Python numbers are modelled as rationals
(ints and the floats produced by true division), strings as strings, and a
captured error descriptor surfaced as data (e.g. in a chord slot). -/
inductive Value where
  | num (q : ℚ)
  | str (s : String)
  | errv (e : ErrDescr)
deriving DecidableEq, Repr

/-- Celery task states visible through the result backend, matching the
spec's Pending/Started/Retrying/Completed/Failed. -/
inductive CeleryState where
  | PENDING
  | STARTED
  | RETRY
  | SUCCESS (v : Value)
  | FAILURE (e : ErrDescr)
deriving DecidableEq, Repr

/-- Result-backend read for a task id, as performed by `get_task_result`
(src/api/dependencies.py lines 5-6) constructing an `AsyncResult`: a task id
with no stored record reads as `PENDING` (the backend's default meta), so an
unknown or expired id is indistinguishable from a never-started one. -/
def get_task_result (store : Option CeleryState) : CeleryState :=
  store.getD .PENDING

/-- `AsyncResult.ready()`: true exactly on the terminal states. -/
def ready : CeleryState → Bool
  | .SUCCESS _ => true
  | .FAILURE _ => true
  | _ => false

/-- `AsyncResult.get()` on a ready task: returns the stored value on
`SUCCESS` and re-raises the stored exception on `FAILURE` (Celery's default
`propagate=True`). On non-ready states `get()` blocks; `get_task_status`
only calls it behind the `ready()` check, so the catch-all case is
unreachable there. -/
def asyncGetReady : CeleryState → Except ErrDescr Value
  | .SUCCESS v => .ok v
  | .FAILURE e => .error e
  | _ => .ok (.str "")

/-- Response schema of the status endpoint
(src/api/schemas.py lines 11-14, `TaskStatusResponse`). -/
structure TaskStatusResponse where
  task_id : String
  status : String
  result : Option Value
deriving DecidableEq, Repr

/-- Status endpoint `GET /tasks/status/{task_id}`
(src/api/routes/tasks.py lines 52-60): reads the backend; if the
`AsyncResult` is ready it answers `Completed` with `task_result.get()`
(whose re-raised exception on a failed task propagates out of the handler,
modelled as `Except.error`); otherwise it answers `Pending`. -/
def get_task_status (task_id : String) (store : Option CeleryState) :
    Except ErrDescr TaskStatusResponse :=
  let task_result := get_task_result store
  if ready task_result then
    (asyncGetReady task_result).map (fun v => ⟨task_id, "Completed", some v⟩)
  else
    .ok ⟨task_id, "Pending", none⟩

/-- Outcome of one execution attempt at the Dispatcher: normal return,
a `self.retry` re-enqueue with a countdown delay, or the original exception
re-raised once retries are exhausted. -/
inductive AttemptOutcome where
  | success (v : Value)
  | retryAfter (countdown : ℕ) (exc : ErrDescr)
  | exhausted (exc : ErrDescr)
deriving DecidableEq, Repr

/-- Body of `divide_numbers_task` (src/tasks/basic_tasks.py lines 19-31),
one attempt at retry count `retries`: a zero divisor raises
`ZeroDivisionError`, caught and turned into `self.retry` with
`countdown = 2 ** self.request.retries`; `self.retry` re-enqueues while
`retries < max_retries` and re-raises the original exception once the
count would exceed `max_retries` (Celery retry semantics, spec section 4.7:
retry permitted while retries_so_far < max_retries). A nonzero divisor
returns the true-division quotient. -/
def divide_numbers_task (x y : ℚ) (retries max_retries : ℕ) : AttemptOutcome :=
  if y = 0 then
    if retries < max_retries then
      .retryAfter (2 ^ retries) zeroDivisionError
    else
      .exhausted zeroDivisionError
  else
    .success (.num (x / y))

instance {ε α : Type} [DecidableEq ε] [DecidableEq α] :
    DecidableEq (Except ε α) := fun a b =>
  match a, b with
  | .ok x, .ok y =>
      if h : x = y then isTrue (by rw [h]) else isFalse (by simp [h])
  | .error x, .error y =>
      if h : x = y then isTrue (by rw [h]) else isFalse (by simp [h])
  | .ok _, .error _ => isFalse (by simp)
  | .error _, .ok _ => isFalse (by simp)

/-- Trace of a task execution through the retry loop: the backoff delays
recorded at each re-enqueue in order, the number of retries performed, and
the terminal outcome (`Completed` value or `Failed` error). -/
structure RunTrace where
  delays : List ℕ
  retries : ℕ
  final : Except ErrDescr Value
deriving DecidableEq, Repr

/-- Modelled from the spec: the Dispatcher / Retry Policy Executor loop
(sections 4.5 and 4.7), which is Celery machinery not present under the
repository tree. Each attempt either completes the task, re-enqueues it
with `retries + 1` recording the backoff delay, or exhausts retries and
settles `Failed` with the captured error. `fuel` bounds the recursion;
`max_retries + 1` attempts always suffice for the default policy. -/
def runAttempts (attempt : ℕ → AttemptOutcome) :
    ℕ → ℕ → List ℕ → RunTrace
  | 0, r, ds => ⟨ds.reverse, r, .error ⟨"OutOfFuel", ""⟩⟩
  | fuel + 1, r, ds =>
    match attempt r with
    | .success v => ⟨ds.reverse, r, .ok v⟩
    | .retryAfter cd _ => runAttempts attempt fuel (r + 1) (cd :: ds)
    | .exhausted e => ⟨ds.reverse, r, .error e⟩

/-- Full execution of the divide task: attempts run from retry count 0
under the task's declared `max_retries`. -/
def runDivide (x y : ℚ) (max_retries : ℕ) : RunTrace :=
  runAttempts (fun r => divide_numbers_task x y r max_retries)
    (max_retries + 1) 0 []

/-- Body of `add_numbers_task` (src/tasks/basic_tasks.py lines 14-16):
returns `x + y`; it cannot raise. -/
def add_numbers_task (x y : ℚ) : Except ErrDescr Value :=
  .ok (.num (x + y))

/-- Left fold of Python's built-in `sum` starting from 0: adding a
non-numeric element (a string or an error descriptor standing in a results
slot) raises `TypeError`. -/
def pySum : ℚ → List Value → Except ErrDescr ℚ
  | acc, [] => .ok acc
  | acc, .num q :: rest => pySum (acc + q) rest
  | _, .str _ :: _ => .error ⟨"TypeError", "unsupported operand type for +"⟩
  | _, .errv _ :: _ => .error ⟨"TypeError", "unsupported operand type for +"⟩

/-- Body of `aggregate_results_task` (src/tasks/basic_tasks.py lines
34-36): returns `sum(results)`. -/
def aggregate_results_task (results : List Value) : Except ErrDescr Value :=
  (pySum 0 results).map .num

/-- Trace of a chain execution: how many steps were actually submitted and
the chain's externally observed outcome. -/
structure ChainTrace where
  submitted : ℕ
  outcome : Except ErrDescr Value
deriving DecidableEq, Repr

/-- Modelled from the spec: the Workflow Composer chain (section 4.6),
Celery machinery not present under the repository tree. Starting from the
outcome of the already-submitted first step, each remaining step is
submitted only when the previous outcome is Completed, with the carried
value spliced into the step's first remaining positional argument slot; a
Failed outcome short-circuits, leaving all remaining steps unsubmitted and
the failing step's error as the chain result. The counter argument records
the number of steps submitted so far. -/
def runChainFrom :
    Except ErrDescr Value → List (Value → Except ErrDescr Value) → ℕ →
      ChainTrace
  | .error e, _, n => ⟨n, .error e⟩
  | .ok v, [], n => ⟨n, .ok v⟩
  | .ok v, step :: rest, n => runChainFrom (step v) rest (n + 1)

/-- Chain execution: the first step is submitted immediately (so the
submission count starts at 1) and the remaining steps follow on success. -/
def runChain (first : Except ErrDescr Value)
    (rest : List (Value → Except ErrDescr Value)) : ChainTrace :=
  runChainFrom first rest 1

/-- Divide step as a chain member, `divide_numbers_task.s(divisor)`
(src/api/routes/tasks.py line 87): the carried value fills the first
remaining positional slot `x` and the bound `divisor` is `y`; the step's
terminal outcome is that of the full retry run under the task's declared
`max_retries = 5`. A non-numeric carried value raises `TypeError`. -/
def divideStep (divisor : ℚ) (v : Value) : Except ErrDescr Value :=
  match v with
  | .num x => (runDivide x divisor 5).final
  | _ => .error ⟨"TypeError", "unsupported operand type for /"⟩

/-- Chain built by `execute_chain_workflow` (src/api/routes/tasks.py lines
81-90): `add_numbers_task.s(x, y)` followed by
`divide_numbers_task.s(divisor)`. -/
def chainAddDivide (x y divisor : ℚ) : ChainTrace :=
  runChain (add_numbers_task x y) [divideStep divisor]

/-- State of a chord synchronization barrier: outstanding header member
count, the result slots indexed by header declaration order, and the list
of callback invocations performed so far (each with its input). -/
structure ChordState where
  counter : ℕ
  slots : List (Option Value)
  calls : List (List (Option Value))
deriving DecidableEq, Repr

/-- Modelled from the spec: the chord barrier step (section 4.6), Celery
machinery not present under the repository tree. A header member reaching a
terminal state deposits its result — or its error descriptor in place of a
result — into its declaration-order slot and decrements the outstanding
counter; exactly when the counter reaches zero the callback is submitted
with the declaration-ordered slots as input. -/
def chordMemberDone (st : ChordState) (ev : ℕ × Value) : ChordState :=
  let slots := st.slots.set ev.1 (some ev.2)
  let c := st.counter - 1
  ⟨c, slots, if c = 0 then st.calls ++ [slots] else st.calls⟩

/-- Chord barrier run over a sequence of header completion events (pairs of
declaration index and terminal result), in completion order, starting from
a header of size `n` with empty slots and no callback invocations. -/
def runChord (n : ℕ) (events : List (ℕ × Value)) : ChordState :=
  events.foldl chordMemberDone ⟨n, List.replicate n none, []⟩

/-- Outcome of the test script's bounded status-polling loop. -/
inductive PollOutcome where
  | completed (r : TaskStatusResponse)
  | gaveUp
  | requestError
deriving DecidableEq, Repr

/-- Polling loop of `check_task_status` (scripts/python/test_tasks.py lines
49-80), one status request per attempt against the stream of backend states
at successive poll instants: returns the response data when the endpoint
reports `Completed`, aborts when the request errors (e.g. the endpoint
re-raised a stored exception as a 500), and otherwise sleeps and polls
again until the remaining attempt budget is spent. -/
def checkFrom (states : ℕ → Option CeleryState) (task_id : String) :
    ℕ → ℕ → PollOutcome
  | _, 0 => .gaveUp
  | attempt, remaining + 1 =>
    match get_task_status task_id (states attempt) with
    | .error _ => .requestError
    | .ok r =>
      if r.status = "Completed" then .completed r
      else checkFrom states task_id (attempt + 1) remaining

/-- `check_task_status` (scripts/python/test_tasks.py lines 49-80): polls
from the first instant with the caller-supplied `max_attempts` budget
(default 10), giving up with `None` once it is spent. -/
def check_task_status (states : ℕ → Option CeleryState) (task_id : String)
    (max_attempts : ℕ) : PollOutcome :=
  checkFrom states task_id 0 max_attempts

/-- `AsyncResult.get()` with no timeout, as called by `run_rag_pipeline`
and `query_vectorstore_sync` (src/api/routes/rag.py lines 23, 34, 81):
blocks until the backend state for the awaited task is ready. Observed for
`fuel` polling instants starting at `step`, it yields the terminal outcome
at the first ready instant and is still blocked (`none`) if no instant
within the observation bound is ready. -/
def getNoTimeoutWithin (states : ℕ → Option CeleryState) :
    ℕ → ℕ → Option (Except ErrDescr Value)
  | _, 0 => none
  | step, fuel + 1 =>
    let st := get_task_result (states step)
    if ready st then some (asyncGetReady st)
    else getNoTimeoutWithin states (step + 1) fuel

/-- Timeout argument at the three blocking result waits in
src/api/routes/rag.py (lines 23, 34, 81): `.get()` is called with no
arguments, so no timeout and no maximum attempt count bounds the wait. -/
def rag_pipeline_get_timeout : Option ℕ := none

/-- Task names registered via `@celery_app.task` across src/tasks/
(basic_tasks.py, document_tasks.py, vectorstore_tasks.py, rag_tasks.py). -/
def registeredTaskNames : List String :=
  ["tasks.process_data", "tasks.add_numbers", "tasks.divide_numbers",
   "tasks.aggregate_results", "tasks.load_pdf", "tasks.split_documents",
   "tasks.create_vectorstore", "tasks.query_vectorstore"]

/-- Modelled from the spec: the route table `TASK_ROUTES` of
src/core/queues.py, which is imported by src/core/celery_app.py and
src/api/routes/tasks.py but missing from the source tree. Per the Queue
Router contract (section 4.3) and the testable property in section 8, the
Route Table holds an entry for every registered Task Definition; the
concrete queue names are not observable from the tree. -/
def TASK_ROUTES : List (String × String) :=
  [("tasks.process_data", "data_queue"),
   ("tasks.add_numbers", "calc_queue"),
   ("tasks.divide_numbers", "calc_queue"),
   ("tasks.aggregate_results", "calc_queue"),
   ("tasks.load_pdf", "document_queue"),
   ("tasks.split_documents", "document_queue"),
   ("tasks.create_vectorstore", "vectorstore_queue"),
   ("tasks.query_vectorstore", "rag_queue")]

/-- Modelled from the spec: the configured default queue of the Queue
Router (section 4.3); its concrete name is not observable from the tree. -/
def DEFAULT_QUEUE : String := "default"

/-- Modelled from the spec: `get_queue_for_task` of src/core/queues.py
(missing from the source tree), the Queue Router's `route_for` — a static
Route Table lookup with a default-queue fallback for absent names
(section 4.3). -/
def get_queue_for_task (task_name : String) : String :=
  (TASK_ROUTES.lookup task_name).getD DEFAULT_QUEUE

/-- Task entries of the introspection endpoint `GET /tasks/info`
(src/api/routes/tasks.py lines 29-41): one name-to-queue entry per
`TASK_ROUTES` item. -/
def get_task_info_tasks : List (String × String) :=
  TASK_ROUTES.map (fun p => (p.1, p.2))

/-- Return dict of `load_pdf_task`. -/
structure LoadPdfResult where
  status : String
  message : String
  documents : List Value
  doc_count : ℕ
deriving DecidableEq, Repr

/-- `load_pdf_task` (src/tasks/document_tasks.py lines 5-21): invokes
`DocumentService.load_pdf` — an external collaborator whose outcome, the
loaded pages or a raised exception, is the parameter — inside a
try/except over `Exception`, so every service error is returned as an
error dict and the handler itself never raises. -/
def load_pdf_task : Except ErrDescr (List Value) → LoadPdfResult
  | .ok documents =>
    ⟨"success",
      "Successfully loaded " ++ toString documents.length ++ " pages",
      documents, documents.length⟩
  | .error e =>
    ⟨"error", "Error loading PDF: " ++ e.message, [], 0⟩

/-- Return dict of `split_documents_task`. -/
structure SplitDocumentsResult where
  status : String
  message : String
  chunks : List Value
  chunk_count : ℕ
deriving DecidableEq, Repr

/-- `split_documents_task` (src/tasks/document_tasks.py lines 24-42):
wraps `DocumentService.split_documents` the same way; every service error
is returned as an error dict and the handler never raises. -/
def split_documents_task : Except ErrDescr (List Value) → SplitDocumentsResult
  | .ok chunks =>
    ⟨"success",
      "Successfully created " ++ toString chunks.length ++ " chunks",
      chunks, chunks.length⟩
  | .error e =>
    ⟨"error", "Error splitting documents: " ++ e.message, [], 0⟩

/-- Return dict of `create_vectorstore_task`. -/
structure CreateVectorstoreResult where
  status : String
  message : String
  vectorstore_path : Option String
  chunk_count : ℕ
deriving DecidableEq, Repr

/-- `create_vectorstore_task` (src/tasks/vectorstore_tasks.py lines 5-21):
wraps `VectorStoreService.create_vectorstore`, whose successful outcome
carries the created collection's chunk count; every service error is
returned as an error dict and the handler never raises. -/
def create_vectorstore_task (persist_directory : String) :
    Except ErrDescr ℕ → CreateVectorstoreResult
  | .ok chunk_count =>
    ⟨"success",
      "Successfully created vectorstore with " ++ toString chunk_count ++
        " chunks",
      some persist_directory, chunk_count⟩
  | .error e =>
    ⟨"error", "Error creating vectorstore: " ++ e.message, none, 0⟩

/-- Successful payload of `RAGService.query`. -/
structure QueryPayload where
  answer : String
  retrieved_chunks : List Value
  sources : List String
  context_used : ℕ
deriving DecidableEq, Repr

/-- Return dict of `query_vectorstore_task`; fields absent from a branch in
the Python dict are `none`. -/
structure QueryVectorstoreResult where
  status : String
  question : Option String
  message : Option String
  answer : Option String
  retrieved_chunks : List Value
  sources : List String
  context_used : Option ℕ
deriving DecidableEq, Repr

/-- `query_vectorstore_task` (src/tasks/rag_tasks.py lines 5-19): wraps
`RAGService.query`; every service error is returned as an error dict and
the handler never raises. -/
def query_vectorstore_task (question : String) :
    Except ErrDescr QueryPayload → QueryVectorstoreResult
  | .ok r =>
    ⟨"success", some question, none, some r.answer, r.retrieved_chunks,
      r.sources, some r.context_used⟩
  | .error e =>
    ⟨"error", none, some ("Error querying vectorstore: " ++ e.message),
      none, [], [], none⟩

/-- Dispatcher view of a handler that returns normally on every input
(spec section 4.5): one successful attempt, zero retries, terminal
`Completed` with the returned value. -/
def dispatchTotal (v : Value) : RunTrace :=
  runAttempts (fun _ => .success v) 1 0 []

end RAGPipeline

namespace RAGPipeline

/-- C1 counterexample: polling the status of a task that settled `Failed`
with the captured `ZeroDivisionError` does not return the error descriptor
as response data — the stored exception is re-raised out of the status
read. -/
theorem failed_status_read_raises_cex :
    get_task_status "task-1" (some (.FAILURE zeroDivisionError)) =
      .error zeroDivisionError := rfl

/-- C1 (amended): for every task that has reached the terminal `Failed`
state, the status endpoint re-raises the captured exception out of the
status read (`ready()` is true and `get()` propagates the stored error),
so the caller receives the exception, never the error descriptor as
response data. -/
theorem failed_status_read_raises (task_id : String) (e : ErrDescr) :
    get_task_status task_id (some (.FAILURE e)) = .error e := rfl

/-- C6 counterexample: a status read on a task id that was never recorded
returns status `Pending` — not `NotFound` — and the response is identical
to that of a known task that has not yet started. -/
theorem unknown_id_reads_pending_cex :
    get_task_status "unknown-id" none = .ok ⟨"unknown-id", "Pending", none⟩ ∧
    get_task_status "unknown-id" none =
      get_task_status "unknown-id" (some .PENDING) := ⟨rfl, rfl⟩

/-- C6 (amended): for every task id that was never recorded (or has
expired), the status read returns status `Pending`; `NotFound` is never
reported and the response is indistinguishable from that of a
known-but-not-yet-started task. -/
theorem unknown_id_reads_pending (task_id : String) :
    get_task_status task_id none = .ok ⟨task_id, "Pending", none⟩ ∧
    get_task_status task_id none = get_task_status task_id (some .PENDING) :=
  ⟨rfl, rfl⟩

/-- C9: every response the status endpoint actually returns carries status
`"Completed"` or `"Pending"`; it never reports `"Started"`, `"Retrying"`,
or `"Failed"`. -/
theorem status_endpoint_two_values (task_id : String)
    (store : Option CeleryState) (r : TaskStatusResponse)
    (h : get_task_status task_id store = .ok r) :
    (r.status = "Completed" ∨ r.status = "Pending") ∧
    r.status ≠ "Started" ∧ r.status ≠ "Retrying" ∧ r.status ≠ "Failed" := by
  rcases store with _ | s
  · injection h with h1
    subst h1
    exact ⟨Or.inr rfl, by simp, by simp, by simp⟩
  · cases s with
    | PENDING =>
        injection h with h1
        subst h1
        exact ⟨Or.inr rfl, by simp, by simp, by simp⟩
    | STARTED =>
        injection h with h1
        subst h1
        exact ⟨Or.inr rfl, by simp, by simp, by simp⟩
    | RETRY =>
        injection h with h1
        subst h1
        exact ⟨Or.inr rfl, by simp, by simp, by simp⟩
    | SUCCESS v =>
        injection h with h1
        subst h1
        exact ⟨Or.inl rfl, by simp, by simp, by simp⟩
    | FAILURE e =>
        injection h

/-- C2: submitting divide(10, 0) with the declared `max_retries = 5`
performs exactly 5 retries with backoff delays 1, 2, 4, 8, 16 seconds
(each delay is `2 ^ retries_so_far`, base 1), the delays are strictly
increasing, and the task settles in the terminal `Failed` state with the
captured `ZeroDivisionError`. -/
theorem divide_by_zero_retries_five_times :
    runDivide 10 0 5 = ⟨[1, 2, 4, 8, 16], 5, .error zeroDivisionError⟩ ∧
    (runDivide 10 0 5).delays.Chain' (· < ·) ∧
    (runDivide 10 0 5).delays = (List.range 5).map (fun r => 1 * 2 ^ r) := by
  have h1 : runDivide 10 0 5 =
      ⟨[1, 2, 4, 8, 16], 5, .error zeroDivisionError⟩ := by decide
  refine ⟨h1, ?_, ?_⟩
  · rw [h1]
    norm_num [List.chain'_cons]
  · rw [h1]
    decide

/-- C3: the add-then-divide chain with x = 10, y = 20, divisor = 5 submits
both steps and settles Completed with result 6 (add's result 30 is carried
into divide's first positional slot); and once any chain step's outcome is
Failed, the remaining steps never change the submission count and the
chain's observed result is that step's error. -/
theorem runDivide_success (x y : ℚ) (mr : ℕ) (hy : y ≠ 0) :
    runDivide x y mr = ⟨[], 0, .ok (.num (x / y))⟩ := by
  simp [runDivide, runAttempts, divide_numbers_task, hy]

theorem chain_add_divide_behavior :
    chainAddDivide 10 20 5 = ⟨2, .ok (.num 6)⟩ ∧
    ∀ (e : ErrDescr) (rest : List (Value → Except ErrDescr Value)) (n : ℕ),
      runChainFrom (.error e) rest n = ⟨n, .error e⟩ := by
  constructor
  · have hadd : add_numbers_task 10 20 = .ok (.num 30) := by
      norm_num [add_numbers_task]
    have hdiv : divideStep 5 (.num 30) = .ok (.num 6) := by
      rw [divideStep, runDivide_success 30 5 5 (by norm_num)]
      norm_num
    calc chainAddDivide 10 20 5
        = runChainFrom (.ok (.num 30)) [divideStep 5] 1 := by
          rw [chainAddDivide, runChain, hadd]
      _ = runChainFrom (divideStep 5 (.num 30)) [] 2 := rfl
      _ = runChainFrom (.ok (.num 6)) [] 2 := by rw [hdiv]
      _ = ⟨2, .ok (.num 6)⟩ := rfl
  · intro e rest n
    cases rest <;> rfl

/-- For a list permuted with a two-element list, the only interleavings are
the two orderings of the pair. -/
theorem perm_pair_cases {α : Type} {l : List α} {a b : α}
    (h : l.Perm [a, b]) : l = [a, b] ∨ l = [b, a] := by
  have hlen := h.length_eq
  rcases l with _ | ⟨x, _ | ⟨y, _ | ⟨z, t⟩⟩⟩ <;> simp at hlen
  have hx : x ∈ [a, b] := h.subset (by simp)
  rcases (by simpa using hx : x = a ∨ x = b) with rfl | rfl
  · left
    have h2 : [y].Perm [b] := (List.perm_cons x).mp h
    rw [List.perm_singleton.mp h2]
  · right
    have h2 : [y].Perm [a] :=
      (List.perm_cons x).mp (h.trans (List.Perm.swap x a []))
    rw [List.perm_singleton.mp h2]

/-- C4: for the chord with header add(10, 5) and divide(10, 2) and callback
aggregate, every interleaving of the two header completions fires the
callback exactly once with input slots [15, 5] in header declaration order
(not completion order), the header members indeed produce 15 and 5, and the
aggregate of [15, 5] is 20. -/
theorem chord_callback_declaration_order (events : List (ℕ × Value))
    (hp : events.Perm [(0, Value.num 15), (1, Value.num 5)]) :
    (runChord 2 events).calls = [[some (Value.num 15), some (Value.num 5)]] ∧
    aggregate_results_task [Value.num 15, Value.num 5] = .ok (Value.num 20) ∧
    add_numbers_task 10 5 = .ok (Value.num 15) ∧
    (runDivide 10 2 5).final = .ok (Value.num 5) := by
  have h4 : (runDivide 10 2 5).final = .ok (Value.num 5) := by
    rw [runDivide_success 10 2 5 (by norm_num)]
    norm_num
  rcases perm_pair_cases hp with rfl | rfl <;>
    exact ⟨rfl, by norm_num [aggregate_results_task, pySum, Except.map],
      by norm_num [add_numbers_task], h4⟩

/-- C4 witness: the interleaving in which the divide member finishes first
still yields exactly one callback invocation with declaration-ordered
input [15, 5]. -/
theorem chord_callback_declaration_order_witness :
    (runChord 2 [(1, Value.num 5), (0, Value.num 15)]).calls =
      [[some (Value.num 15), some (Value.num 5)]] ∧
    aggregate_results_task [Value.num 15, Value.num 5] = .ok (Value.num 20) ∧
    add_numbers_task 10 5 = .ok (Value.num 15) ∧
    (runDivide 10 2 5).final = .ok (Value.num 5) :=
  chord_callback_declaration_order [(1, Value.num 5), (0, Value.num 15)]
    (List.Perm.swap (0, Value.num 15) (1, Value.num 5) [])

/-- C5 counterexample: the chord callback `aggregate_results_task` does not
accept mixed success/failure inputs — summing a results list whose second
slot holds the captured error descriptor raises `TypeError`. -/
theorem aggregate_rejects_error_slot_cex :
    aggregate_results_task [Value.num 15, Value.errv zeroDivisionError] =
      .error ⟨"TypeError", "unsupported operand type for +"⟩ := by
  norm_num [aggregate_results_task, pySum, Except.map]

/-- C5 (amended): a failed header member does not abort the chord barrier —
for every interleaving the callback is still invoked exactly once, after
both members are terminal, with the error descriptor occupying the failed
member's slot; but the aggregate callback does not accept such mixed
inputs: summing them raises `TypeError`, so the callback itself fails. -/
theorem chord_failed_member_reaches_callback (events : List (ℕ × Value))
    (hp : events.Perm [(0, Value.num 15), (1, Value.errv zeroDivisionError)]) :
    (runChord 2 events).calls =
      [[some (Value.num 15), some (Value.errv zeroDivisionError)]] ∧
    aggregate_results_task [Value.num 15, Value.errv zeroDivisionError] =
      .error ⟨"TypeError", "unsupported operand type for +"⟩ := by
  rcases perm_pair_cases hp with rfl | rfl <;>
    exact ⟨rfl, by norm_num [aggregate_results_task, pySum, Except.map]⟩

/-- C5 witness: the interleaving in which the failed member finishes first
still fires the callback exactly once with the error descriptor in its
declaration-order slot, and the aggregate callback rejects that input. -/
theorem chord_failed_member_reaches_callback_witness :
    (runChord 2 [(1, Value.errv zeroDivisionError), (0, Value.num 15)]).calls =
      [[some (Value.num 15), some (Value.errv zeroDivisionError)]] ∧
    aggregate_results_task [Value.num 15, Value.errv zeroDivisionError] =
      .error ⟨"TypeError", "unsupported operand type for +"⟩ :=
  chord_failed_member_reaches_callback
    [(1, Value.errv zeroDivisionError), (0, Value.num 15)]
    (List.Perm.swap (0, Value.num 15) (1, Value.errv zeroDivisionError) [])

/-- C9 witness: a successfully stored result is reported as `Completed`,
which satisfies the two-value property at a concrete instance. -/
theorem status_endpoint_two_values_witness :
    ((TaskStatusResponse.mk "t" "Completed" (some (.str "ok"))).status = "Completed" ∨
      (TaskStatusResponse.mk "t" "Completed" (some (.str "ok"))).status = "Pending") ∧
    (TaskStatusResponse.mk "t" "Completed" (some (.str "ok"))).status ≠ "Started" ∧
    (TaskStatusResponse.mk "t" "Completed" (some (.str "ok"))).status ≠ "Retrying" ∧
    (TaskStatusResponse.mk "t" "Completed" (some (.str "ok"))).status ≠ "Failed" :=
  status_endpoint_two_values "t" (some (.SUCCESS (.str "ok")))
    ⟨"t", "Completed", some (.str "ok")⟩ rfl

theorem checkFrom_pending (task_id : String) :
    ∀ (m attempt : ℕ),
      checkFrom (fun _ => none) task_id attempt m = .gaveUp := by
  intro m
  induction m with
  | zero => intro attempt; rfl
  | succ k ih =>
      intro attempt
      have : checkFrom (fun _ => none) task_id attempt (k + 1) =
          checkFrom (fun _ => none) task_id (attempt + 1) k := by
        simp [checkFrom, get_task_status, get_task_result, ready]
      rw [this, ih]

theorem getNoTimeoutWithin_pending :
    ∀ (fuel step : ℕ),
      getNoTimeoutWithin (fun _ => none) step fuel = none := by
  intro fuel
  induction fuel with
  | zero => intro step; rfl
  | succ k ih =>
      intro step
      have : getNoTimeoutWithin (fun _ => none) step (k + 1) =
          getNoTimeoutWithin (fun _ => none) (step + 1) k := by
        simp [getNoTimeoutWithin, get_task_result, ready]
      rw [this, ih]

/-- C7 counterexample: the RAG pipeline route's synchronous result waits
call `.get()` with no timeout and no maximum attempt count, and on a task
that never completes the wait has not returned after a million observed
polling instants — it does not terminate after any caller-supplied attempt
budget. -/
theorem rag_pipeline_wait_unbounded_cex :
    rag_pipeline_get_timeout = none ∧
    getNoTimeoutWithin (fun _ => none) 0 1000000 = none :=
  ⟨rfl, getNoTimeoutWithin_pending 1000000 0⟩

/-- C7 (amended): the test script's `check_task_status` polls at a bounded
interval and gives up after the caller-supplied `max_attempts` budget even
when the awaited task never completes; but the RAG pipeline route's
synchronous waits pass no timeout to `.get()`, and on a task that never
completes they remain blocked at every observation bound. -/
theorem bounded_script_poll_unbounded_pipeline_wait :
    (∀ (task_id : String) (max_attempts : ℕ),
      check_task_status (fun _ => none) task_id max_attempts = .gaveUp) ∧
    (∀ (step fuel : ℕ),
      getNoTimeoutWithin (fun _ => none) step fuel = none) ∧
    rag_pipeline_get_timeout = none :=
  ⟨fun task_id m => checkFrom_pending task_id m 0,
   fun step fuel => getNoTimeoutWithin_pending fuel step, rfl⟩

/-- C8: the introspection listing holds a queue entry for every registered
task name, and queue resolution for any name absent from the route table
falls back to the configured default queue. -/
theorem routes_cover_registered_tasks :
    (∀ t ∈ registeredTaskNames,
      ∃ q, get_task_info_tasks.lookup t = some q) ∧
    ∀ name, TASK_ROUTES.lookup name = none →
      get_queue_for_task name = DEFAULT_QUEUE := by
  constructor
  · have hall : ∀ t ∈ registeredTaskNames,
        (get_task_info_tasks.lookup t).isSome = true := by decide
    intro t ht
    exact Option.isSome_iff_exists.mp (hall t ht)
  · intro name hnone
    simp [get_queue_for_task, hnone]

/-- C8 witness: a registered name has a listing entry and an unregistered
name resolves to the default queue. -/
theorem routes_cover_registered_tasks_witness :
    (∃ q, get_task_info_tasks.lookup "tasks.add_numbers" = some q) ∧
    get_queue_for_task "tasks.unregistered" = DEFAULT_QUEUE :=
  ⟨routes_cover_registered_tasks.1 "tasks.add_numbers" (by decide),
   routes_cover_registered_tasks.2 "tasks.unregistered" (by decide)⟩

/-- C10: each of the four RAG-domain task handlers is a total function of
its service outcome — every service exception is caught and returned as a
dict whose status field is "success" or "error" — and a handler returning
normally makes the Dispatcher settle the task `Completed` with zero
retries, never `Failed`. -/
theorem rag_handlers_never_raise :
    (∀ svc, (load_pdf_task svc).status = "success" ∨
      (load_pdf_task svc).status = "error") ∧
    (∀ svc, (split_documents_task svc).status = "success" ∨
      (split_documents_task svc).status = "error") ∧
    (∀ dir svc, (create_vectorstore_task dir svc).status = "success" ∨
      (create_vectorstore_task dir svc).status = "error") ∧
    (∀ q svc, (query_vectorstore_task q svc).status = "success" ∨
      (query_vectorstore_task q svc).status = "error") ∧
    (∀ v, dispatchTotal v = ⟨[], 0, .ok v⟩) := by
  refine ⟨fun svc => ?_, fun svc => ?_, fun dir svc => ?_,
    fun q svc => ?_, fun v => rfl⟩ <;>
    rcases svc with _ | _ <;> simp [load_pdf_task, split_documents_task,
      create_vectorstore_task, query_vectorstore_task]

/-- C1 witness: the amended behaviour at a concrete failed task. -/
theorem failed_status_read_raises_witness :
    get_task_status "w1" (some (.FAILURE ⟨"ValueError", "bad input"⟩)) =
      .error ⟨"ValueError", "bad input"⟩ :=
  failed_status_read_raises "w1" ⟨"ValueError", "bad input"⟩

/-- C6 witness: the amended behaviour at a concrete unknown task id. -/
theorem unknown_id_reads_pending_witness :
    get_task_status "w6" none = .ok ⟨"w6", "Pending", none⟩ ∧
    get_task_status "w6" none = get_task_status "w6" (some .PENDING) :=
  unknown_id_reads_pending "w6"

/-- C3 witness: the concrete successful chain plus short-circuiting at a
concrete failed outcome with one remaining step. -/
theorem chain_add_divide_behavior_witness :
    chainAddDivide 10 20 5 = ⟨2, .ok (.num 6)⟩ ∧
    runChainFrom (.error ⟨"E", "boom"⟩) [divideStep 5] 7 =
      ⟨7, .error ⟨"E", "boom"⟩⟩ :=
  ⟨chain_add_divide_behavior.1,
   chain_add_divide_behavior.2 ⟨"E", "boom"⟩ [divideStep 5] 7⟩

/-- C7 witness: the amended behaviour at concrete attempt budgets. -/
theorem bounded_script_poll_unbounded_pipeline_wait_witness :
    check_task_status (fun _ => none) "w7" 10 = .gaveUp ∧
    getNoTimeoutWithin (fun _ => none) 0 5 = none ∧
    rag_pipeline_get_timeout = none :=
  ⟨bounded_script_poll_unbounded_pipeline_wait.1 "w7" 10,
   bounded_script_poll_unbounded_pipeline_wait.2.1 0 5,
   bounded_script_poll_unbounded_pipeline_wait.2.2⟩

/-- C10 witness: each handler at a concrete service failure, and the
dispatcher outcome at a concrete returned value. -/
theorem rag_handlers_never_raise_witness :
    ((load_pdf_task (.error ⟨"E", "x"⟩)).status = "success" ∨
      (load_pdf_task (.error ⟨"E", "x"⟩)).status = "error") ∧
    ((split_documents_task (.error ⟨"E", "x"⟩)).status = "success" ∨
      (split_documents_task (.error ⟨"E", "x"⟩)).status = "error") ∧
    ((create_vectorstore_task "./dir" (.error ⟨"E", "x"⟩)).status =
        "success" ∨
      (create_vectorstore_task "./dir" (.error ⟨"E", "x"⟩)).status =
        "error") ∧
    ((query_vectorstore_task "q" (.error ⟨"E", "x"⟩)).status = "success" ∨
      (query_vectorstore_task "q" (.error ⟨"E", "x"⟩)).status = "error") ∧
    dispatchTotal (.num 1) = ⟨[], 0, .ok (.num 1)⟩ :=
  ⟨rag_handlers_never_raise.1 (.error ⟨"E", "x"⟩),
   rag_handlers_never_raise.2.1 (.error ⟨"E", "x"⟩),
   rag_handlers_never_raise.2.2.1 "./dir" (.error ⟨"E", "x"⟩),
   rag_handlers_never_raise.2.2.2.1 "q" (.error ⟨"E", "x"⟩),
   rag_handlers_never_raise.2.2.2.2 (.num 1)⟩

end RAGPipeline
